import Mathlib

/-!
Verification of the floorplan-to-3D-mesh core (`src/main.rs`).

The source converts an ordered 2D polygon (a `Vec<Point>`) into either a flat
single-face mesh (`Floorplan2DMesh::from`) or a closed 3D prism mesh
(`Floorplan3DMesh::from`).  Coordinates are `f32` in the source, but the two
meshers perform no arithmetic on them — coordinates are only copied and paired
with one of the two elevation constants — so we embed coordinates as rationals,
which represent every value appearing in the program and its tests exactly.
Faces are lists of 1-based `usize` indices, embedded as `List Nat`.
-/

namespace FloorplanMesh

/-- Embeds `struct Point { x: f32, y: f32 }`. -/
structure Point where
  x : ℚ
  y : ℚ
  deriving DecidableEq, Repr

/-- Embeds `struct PointZ { x: f32, y: f32, z: f32 }`. -/
structure PointZ where
  x : ℚ
  y : ℚ
  z : ℚ
  deriving DecidableEq, Repr

/-- Embeds `const FLOOR_Z_INDEX: f32 = 0.0`. -/
def FLOOR_Z_INDEX : ℚ := 0

/-- Embeds `const ROOF_Z_INDEX: f32 = 10.0`. -/
def ROOF_Z_INDEX : ℚ := 10

/-- Embeds `PointZ::new`. -/
def PointZ.new (x y z : ℚ) : PointZ := ⟨x, y, z⟩

/-- Embeds `PointZ::floor`. -/
def PointZ.floor (x y : ℚ) : PointZ := PointZ.new x y FLOOR_Z_INDEX

/-- Embeds `PointZ::roof`. -/
def PointZ.roof (x y : ℚ) : PointZ := PointZ.new x y ROOF_Z_INDEX

/-- Embeds `Point::new`. -/
def Point.new (x y : ℚ) : Point := ⟨x, y⟩

/-- Embeds `type MeshFaces = Vec<Vec<usize>>`. -/
abbrev MeshFaces := List (List Nat)

/-- Embeds `struct Floorplan2DMesh { vertices: Vec<Point>, faces: MeshFaces }`. -/
structure Floorplan2DMesh where
  vertices : List Point
  faces : MeshFaces
  deriving DecidableEq, Repr

/-- Embeds `struct Floorplan3DMesh { vertices: Vec<PointZ>, faces: MeshFaces }`. -/
structure Floorplan3DMesh where
  vertices : List PointZ
  faces : MeshFaces
  deriving DecidableEq, Repr

/-- Embeds `impl From<Vec<Point>> for Floorplan2DMesh`:
`faces = (1..=value.len()).collect()` is the list `[1, …, N]`, and the mesh is
`{ vertices: value, faces: vec![faces] }`. -/
def Floorplan2DMesh.fromPoints (value : List Point) : Floorplan2DMesh :=
  { vertices := value
    faces := [List.range' 1 value.length] }

/-- The quad face pushed by one iteration of the side-face loop in
`impl From<Vec<Point>> for Floorplan3DMesh` (`n` is `shape_2d_points`):
`start = if index == n { 1 } else { index + 1 }` and the pushed face is
`vec![p1, p2, p3, p4]` with `p1 = index`, `p2 = start`, `p3 = p2 + n`,
`p4 = p1 + n`. -/
def sideQuad (n index : Nat) : List Nat :=
  let start := if index == n then 1 else index + 1
  let p1 := index
  let p2 := start
  let p3 := p2 + n
  let p4 := p1 + n
  [p1, p2, p3, p4]

/-- Embeds `impl From<Vec<Point>> for Floorplan3DMesh`: the roof copies of all
input points followed by the floor copies; then the face list built by three
pushes — the top ring `(1..=n).collect()`, one `sideQuad` per `index` in
`1..=n`, and the bottom ring `(n+1..=2n).collect()`. -/
def Floorplan3DMesh.fromPoints (value : List Point) : Floorplan3DMesh :=
  let shape_2d_points := value.length
  let vertices : List PointZ :=
    value.map (fun point => PointZ.roof point.x point.y) ++
      value.map (fun point => PointZ.floor point.x point.y)
  let faces : MeshFaces :=
    List.range' 1 shape_2d_points ::
      ((List.range' 1 shape_2d_points).map (sideQuad shape_2d_points) ++
        [List.range' (shape_2d_points + 1) shape_2d_points])
  { vertices := vertices, faces := faces }

/-- The successor-with-wraparound function of the spec:
`next(i) = i + 1` if `i < N`, else `1`. -/
def nextIdx (n i : Nat) : Nat := if i < n then i + 1 else 1

/-- For `1 ≤ i ≤ n`, the loop body's quad agrees with the spec's
`[i, next(i), next(i) + n, i + n]` description. -/
theorem sideQuad_eq_nextIdx {n i : Nat} (h1 : 1 ≤ i) (h2 : i ≤ n) :
    sideQuad n i = [i, nextIdx n i, nextIdx n i + n, i + n] := by
  simp only [sideQuad, nextIdx]
  rcases Nat.lt_or_ge i n with h | h
  · have hne : (i == n) = false := by simp [Nat.ne_of_lt h]
    simp [hne, h]
  · have heq : i = n := Nat.le_antisymm h2 h
    subst heq
    simp

/-- The hexagon input of the repository's tests. -/
def hexagon : List Point :=
  [Point.new 0 0, Point.new 0 5, Point.new 5 5,
   Point.new 5 4, Point.new 1 4, Point.new 1 0]

/-- C7: on the concrete hexagon `[(0,0), (0,5), (5,5), (5,4), (1,4), (1,0)]`,
the prism extruder outputs the 6 roof points at z = 10 followed by the 6 floor
points at z = 0, both in input (x, y) order, and exactly the face list
`[[1,2,3,4,5,6], [1,2,8,7], [2,3,9,8], [3,4,10,9], [4,5,11,10], [5,6,12,11],
[6,1,7,12], [7,8,9,10,11,12]]`. -/
theorem hexagon_scenario :
    Floorplan3DMesh.fromPoints hexagon =
      ⟨[⟨0, 0, 10⟩, ⟨0, 5, 10⟩, ⟨5, 5, 10⟩, ⟨5, 4, 10⟩, ⟨1, 4, 10⟩, ⟨1, 0, 10⟩,
        ⟨0, 0, 0⟩, ⟨0, 5, 0⟩, ⟨5, 5, 0⟩, ⟨5, 4, 0⟩, ⟨1, 4, 0⟩, ⟨1, 0, 0⟩],
       [[1, 2, 3, 4, 5, 6],
        [1, 2, 8, 7], [2, 3, 9, 8], [3, 4, 10, 9],
        [4, 5, 11, 10], [5, 6, 12, 11], [6, 1, 7, 12],
        [7, 8, 9, 10, 11, 12]]⟩ := by
  rfl

/-- C8 counterexample: on the empty polygon the planar mesher does NOT return
an empty face list — its face list is `[[]]`, one degenerate empty face. -/
theorem empty_planar_counterexample :
    ¬ ((Floorplan2DMesh.fromPoints []).vertices = [] ∧
       (Floorplan2DMesh.fromPoints []).faces = []) := by
  intro h
  exact absurd h.2 (by decide)

/-- C8 (amended): on the empty polygon the planar mesher returns a mesh with
an empty vertex list and a face list holding exactly one face, the empty
face. -/
theorem empty_planar_mesh :
    (Floorplan2DMesh.fromPoints []).vertices = [] ∧
    (Floorplan2DMesh.fromPoints []).faces = [[]] := by
  exact ⟨rfl, rfl⟩

/-- C10: on the empty polygon the prism extruder returns zero vertices and
exactly two faces, both empty index lists (the degenerate top and bottom
rings); no side faces are produced. -/
theorem empty_prism_mesh :
    Floorplan3DMesh.fromPoints [] = ⟨[], [[], []]⟩ := by
  rfl

/-- C1: for any input polygon of length N ≥ 1, the prism extruder returns
2N vertices and N + 2 faces, and the planar mesher returns N vertices and a
single face of length N. -/
theorem vertex_face_count_law (P : List Point) (h : 1 ≤ P.length) :
    (Floorplan3DMesh.fromPoints P).vertices.length = 2 * P.length ∧
    (Floorplan3DMesh.fromPoints P).faces.length = P.length + 2 ∧
    (Floorplan2DMesh.fromPoints P).vertices.length = P.length ∧
    ∃ f, (Floorplan2DMesh.fromPoints P).faces = [f] ∧ f.length = P.length := by
  refine ⟨?_, ?_, rfl, List.range' 1 P.length, rfl, by simp⟩
  · simp [Floorplan3DMesh.fromPoints, Nat.two_mul]
  · simp [Floorplan3DMesh.fromPoints]

/-- C1 witness: the count law at the one-point polygon `[(0, 0)]`. -/
theorem vertex_face_count_law_witness :
    1 ≤ ([Point.new 0 0] : List Point).length ∧
    ((Floorplan3DMesh.fromPoints [Point.new 0 0]).vertices.length = 2 * 1 ∧
     (Floorplan3DMesh.fromPoints [Point.new 0 0]).faces.length = 1 + 2 ∧
     (Floorplan2DMesh.fromPoints [Point.new 0 0]).vertices.length = 1 ∧
     ∃ f, (Floorplan2DMesh.fromPoints [Point.new 0 0]).faces = [f] ∧
       f.length = 1) :=
  ⟨by decide, vertex_face_count_law [Point.new 0 0] (by decide)⟩

/-- The prism extruder's vertex list, unfolded: roof copies then floor copies. -/
theorem fromPoints_vertices (P : List Point) :
    (Floorplan3DMesh.fromPoints P).vertices =
      P.map (fun p => PointZ.roof p.x p.y) ++
        P.map (fun p => PointZ.floor p.x p.y) := rfl

/-- The prism extruder's face list, unfolded: top ring, then the side quads in
edge order, then the bottom ring. -/
theorem fromPoints_faces (P : List Point) :
    (Floorplan3DMesh.fromPoints P).faces =
      List.range' 1 P.length ::
        ((List.range' 1 P.length).map (sideQuad P.length) ++
          [List.range' (P.length + 1) P.length]) := rfl

/-- Face number `i` (0-based, so skipping the top ring at position 0) of the
prism extruder is the side quad of the `i`-th polygon edge, for `1 ≤ i ≤ N`. -/
theorem faces_getElem_side (P : List Point) (i : Nat) (h1 : 1 ≤ i)
    (h2 : i ≤ P.length) :
    (Floorplan3DMesh.fromPoints P).faces[i]? = some (sideQuad P.length i) := by
  rw [fromPoints_faces]
  obtain ⟨j, rfl⟩ : ∃ j, i = j + 1 := ⟨i - 1, by omega⟩
  rw [List.getElem?_cons_succ,
    List.getElem?_append_left (by simp; omega),
    List.getElem?_map, List.getElem?_range' _ _ (by simpa using h2)]
  simp [Nat.add_comm 1 j]

/-- C2: for `1 ≤ i ≤ N`, the prism extruder's vertex at 1-based index `i` is
`(P_i.x, P_i.y, roof_z)` and its vertex at 1-based index `N + i` is
`(P_i.x, P_i.y, floor_z)`, with `roof_z = 10` and `floor_z = 0`; the whole
vertex list is the roof block followed by the floor block, each preserving the
input order. -/
theorem roof_floor_split_law (P : List Point) (i : Nat) (h1 : 1 ≤ i)
    (h2 : i ≤ P.length) :
    ROOF_Z_INDEX = 10 ∧ FLOOR_Z_INDEX = 0 ∧
    (Floorplan3DMesh.fromPoints P).vertices =
      P.map (fun p => PointZ.roof p.x p.y) ++
        P.map (fun p => PointZ.floor p.x p.y) ∧
    (Floorplan3DMesh.fromPoints P).vertices[i - 1]? =
      (P[i - 1]?).map (fun p => PointZ.roof p.x p.y) ∧
    (Floorplan3DMesh.fromPoints P).vertices[P.length + i - 1]? =
      (P[i - 1]?).map (fun p => PointZ.floor p.x p.y) := by
  have hlt : i - 1 < P.length := by omega
  refine ⟨rfl, rfl, rfl, ?_, ?_⟩
  · rw [fromPoints_vertices,
      List.getElem?_append_left (by simpa using hlt), List.getElem?_map]
  · have hsplit : P.length + i - 1 = P.length + (i - 1) := by omega
    rw [fromPoints_vertices, hsplit,
      List.getElem?_append_right (by simp),
      List.getElem?_map]
    simp

/-- C3: for `1 ≤ i ≤ N`, the `i`-th side face of the prism extruder is the
quad `[i, next(i), next(i) + N, i + N]` with `next(i) = i + 1` for `i < N` and
`next(N) = 1`; in particular the last side face is `[N, 1, 1 + N, N + N]`,
wrapping back to roof index 1 rather than a nonexistent index `N + 1`. -/
theorem side_faces_law (P : List Point) (i : Nat) (h1 : 1 ≤ i)
    (h2 : i ≤ P.length) :
    (Floorplan3DMesh.fromPoints P).faces[i]? =
      some [i, nextIdx P.length i, nextIdx P.length i + P.length,
        i + P.length] ∧
    (Floorplan3DMesh.fromPoints P).faces[P.length]? =
      some [P.length, 1, 1 + P.length, P.length + P.length] := by
  constructor
  · rw [faces_getElem_side P i h1 h2, sideQuad_eq_nextIdx h1 h2]
  · rw [faces_getElem_side P P.length (le_trans h1 h2) le_rfl,
      sideQuad_eq_nextIdx (le_trans h1 h2) le_rfl]
    simp [nextIdx]

/-- C4: the prism extruder's face list is, in order, the top face `[1, …, N]`,
then the `N` side quads in edge order, and last the bottom face
`[N+1, …, 2N]`, the bottom traversed in the same (unreversed) relative order
as the top. -/
theorem face_list_order (P : List Point) (h : 1 ≤ P.length) :
    ∃ top sides bottom,
      (Floorplan3DMesh.fromPoints P).faces = top :: (sides ++ [bottom]) ∧
      top.length = P.length ∧
      (∀ j, j < P.length → top[j]? = some (j + 1)) ∧
      sides.length = P.length ∧
      (∀ i, 1 ≤ i → i ≤ P.length → sides[i - 1]? =
        some [i, nextIdx P.length i, nextIdx P.length i + P.length,
          i + P.length]) ∧
      bottom.length = P.length ∧
      (∀ j, j < P.length → bottom[j]? = some (P.length + 1 + j)) := by
  refine ⟨List.range' 1 P.length,
    (List.range' 1 P.length).map (sideQuad P.length),
    List.range' (P.length + 1) P.length,
    fromPoints_faces P, by simp, ?_, by simp, ?_, by simp, ?_⟩
  · intro j hj
    rw [List.getElem?_range' _ _ hj]
    simp [Nat.add_comm]
  · intro i hi1 hi2
    rw [List.getElem?_map, List.getElem?_range' _ _ (by omega)]
    have hidx : 1 + 1 * (i - 1) = i := by omega
    rw [hidx]
    simp [sideQuad_eq_nextIdx hi1 hi2]
  · intro j hj
    rw [List.getElem?_range' _ _ hj]
    simp

/-- The wraparound successor stays in `[1, n]` whenever its argument does. -/
theorem nextIdx_bounds {n i : Nat} (h1 : 1 ≤ i) (h2 : i ≤ n) :
    1 ≤ nextIdx n i ∧ nextIdx n i ≤ n := by
  unfold nextIdx
  split <;> omega

/-- The side quads repeat no index as soon as the polygon has `N ≥ 2`
vertices. -/
theorem sideQuad_nodup {n i : Nat} (h1 : 1 ≤ i) (h2 : i ≤ n) (hn : 2 ≤ n) :
    (sideQuad n i).Nodup := by
  rw [sideQuad_eq_nextIdx h1 h2]
  obtain ⟨hk1, hk2⟩ := nextIdx_bounds h1 h2
  have hk3 : nextIdx n i ≠ i := by
    unfold nextIdx
    split <;> omega
  simp only [List.nodup_cons, List.mem_cons, List.mem_singleton,
    List.not_mem_nil, List.nodup_nil, not_false_eq_true, and_true, not_or]
  omega

/-- C5 counterexample: at the one-point polygon `[(0, 0)]` the prism extruder
emits the side face `[1, 1, 2, 2]`, which contains the same index twice, so
the no-duplicate half of the claim fails at `N = 1`. -/
theorem index_nodup_counterexample :
    ¬ (∀ face ∈ (Floorplan3DMesh.fromPoints [Point.new 0 0]).faces,
        (∀ idx ∈ face, 1 ≤ idx ∧
          idx ≤ (Floorplan3DMesh.fromPoints [Point.new 0 0]).vertices.length) ∧
        face.Nodup) := by
  intro h
  have hfaces : (Floorplan3DMesh.fromPoints [Point.new 0 0]).faces =
      [[1], [1, 1, 2, 2], [2]] := rfl
  have hmem : [1, 1, 2, 2] ∈ (Floorplan3DMesh.fromPoints [Point.new 0 0]).faces := by
    rw [hfaces]
    simp
  exact absurd (h _ hmem).2 (by decide)

/-- C5 (amended): for every polygon of length `N ≥ 1`, every index in every
face of either mesher lies in `[1, len(vertices)]` of the owning mesh; each
face of the planar mesher repeats no index, and each face of the prism
extruder repeats no index provided `N ≥ 2` (at `N = 1` the single degenerate
side quad `[1, 1, 2, 2]` does repeat indices). -/
theorem index_range_law (P : List Point) (h : 1 ≤ P.length) :
    (∀ face ∈ (Floorplan3DMesh.fromPoints P).faces, ∀ idx ∈ face,
        1 ≤ idx ∧ idx ≤ (Floorplan3DMesh.fromPoints P).vertices.length) ∧
    (∀ face ∈ (Floorplan2DMesh.fromPoints P).faces,
        (∀ idx ∈ face, 1 ≤ idx ∧
          idx ≤ (Floorplan2DMesh.fromPoints P).vertices.length) ∧
        face.Nodup) ∧
    (2 ≤ P.length → ∀ face ∈ (Floorplan3DMesh.fromPoints P).faces,
        face.Nodup) := by
  have hvlen : (Floorplan3DMesh.fromPoints P).vertices.length = 2 * P.length := by
    rw [fromPoints_vertices]
    simp [Nat.two_mul]
  have hmem3 : ∀ face ∈ (Floorplan3DMesh.fromPoints P).faces,
      face = List.range' 1 P.length ∨
      (∃ i, (1 ≤ i ∧ i ≤ P.length) ∧ face = sideQuad P.length i) ∨
      face = List.range' (P.length + 1) P.length := by
    intro face hface
    rw [fromPoints_faces] at hface
    rcases List.mem_cons.1 hface with htop | hrest
    · exact Or.inl htop
    rcases List.mem_append.1 hrest with hside | hbot
    · obtain ⟨i, hi, hq⟩ := List.mem_map.1 hside
      rw [List.mem_range'_1] at hi
      exact Or.inr (Or.inl ⟨i, ⟨hi.1, by omega⟩, hq.symm⟩)
    · exact Or.inr (Or.inr (List.mem_singleton.1 hbot))
  refine ⟨?_, ?_, ?_⟩
  · intro face hface idx hidx
    rw [hvlen]
    rcases hmem3 face hface with htop | ⟨i, ⟨hi1, hi2⟩, hq⟩ | hbot
    · subst htop
      rw [List.mem_range'_1] at hidx
      omega
    · subst hq
      rw [sideQuad_eq_nextIdx hi1 hi2] at hidx
      obtain ⟨hk1, hk2⟩ := nextIdx_bounds hi1 hi2
      simp only [List.mem_cons, List.mem_singleton,
        List.not_mem_nil, or_false] at hidx
      omega
    · subst hbot
      rw [List.mem_range'_1] at hidx
      omega
  · intro face hface
    have hfc : face = List.range' 1 P.length := by
      have : (Floorplan2DMesh.fromPoints P).faces = [List.range' 1 P.length] := rfl
      rw [this] at hface
      exact List.mem_singleton.1 hface
    subst hfc
    refine ⟨?_, List.nodup_range' 1 P.length⟩
    intro idx hidx
    rw [List.mem_range'_1] at hidx
    have : (Floorplan2DMesh.fromPoints P).vertices = P := rfl
    rw [this]
    omega
  · intro hn face hface
    rcases hmem3 face hface with htop | ⟨i, ⟨hi1, hi2⟩, hq⟩ | hbot
    · subst htop
      exact List.nodup_range' 1 P.length
    · subst hq
      exact sideQuad_nodup hi1 hi2 hn
    · subst hbot
      exact List.nodup_range' (P.length + 1) P.length

/-- C6: the planar mesher returns the input vertex sequence unchanged and in
order, and a single face whose `j`-th entry (0-based `j`) is `j + 1`, i.e.
the face `[1, 2, …, N]`. -/
theorem planar_mesher_contract (P : List Point) (h : 1 ≤ P.length) :
    (Floorplan2DMesh.fromPoints P).vertices = P ∧
    ∃ f, (Floorplan2DMesh.fromPoints P).faces = [f] ∧
      f.length = P.length ∧ ∀ j, j < P.length → f[j]? = some (j + 1) := by
  refine ⟨rfl, List.range' 1 P.length, rfl, by simp, ?_⟩
  intro j hj
  rw [List.getElem?_range' _ _ hj]
  simp [Nat.add_comm]

/-- C9: both meshers are total functions of the input point list — for every
input, the empty list included, they produce a structurally complete mesh
(the count laws hold unconditionally); no input is rejected and no partial
operation occurs in either construction. -/
theorem meshers_total (P : List Point) :
    (Floorplan2DMesh.fromPoints P).vertices.length = P.length ∧
    (Floorplan2DMesh.fromPoints P).faces.length = 1 ∧
    (Floorplan3DMesh.fromPoints P).vertices.length = 2 * P.length ∧
    (Floorplan3DMesh.fromPoints P).faces.length = P.length + 2 := by
  refine ⟨rfl, rfl, ?_, ?_⟩
  · rw [fromPoints_vertices]
    simp [Nat.two_mul]
  · rw [fromPoints_faces]
    simp

/-- C2 witness: the roof/floor split law at the two-point polygon
`[(0, 0), (1, 2)]` and index `i = 2`. -/
theorem roof_floor_split_law_witness :
    (1 ≤ 2 ∧ 2 ≤ ([Point.new 0 0, Point.new 1 2] : List Point).length) ∧
    (ROOF_Z_INDEX = 10 ∧ FLOOR_Z_INDEX = 0 ∧
     (Floorplan3DMesh.fromPoints [Point.new 0 0, Point.new 1 2]).vertices =
       ([Point.new 0 0, Point.new 1 2] : List Point).map
           (fun p => PointZ.roof p.x p.y) ++
         ([Point.new 0 0, Point.new 1 2] : List Point).map
           (fun p => PointZ.floor p.x p.y) ∧
     (Floorplan3DMesh.fromPoints [Point.new 0 0, Point.new 1 2]).vertices[2 - 1]? =
       (([Point.new 0 0, Point.new 1 2] : List Point)[2 - 1]?).map
         (fun p => PointZ.roof p.x p.y) ∧
     (Floorplan3DMesh.fromPoints [Point.new 0 0, Point.new 1 2]).vertices[
         ([Point.new 0 0, Point.new 1 2] : List Point).length + 2 - 1]? =
       (([Point.new 0 0, Point.new 1 2] : List Point)[2 - 1]?).map
         (fun p => PointZ.floor p.x p.y)) :=
  ⟨⟨by decide, by decide⟩,
    roof_floor_split_law [Point.new 0 0, Point.new 1 2] 2 (by decide) (by decide)⟩

/-- C3 witness: the side-face law at the hexagon and edge `i = 6`, the
wraparound edge. -/
theorem side_faces_law_witness :
    (1 ≤ 6 ∧ 6 ≤ hexagon.length) ∧
    ((Floorplan3DMesh.fromPoints hexagon).faces[6]? =
       some [6, nextIdx hexagon.length 6, nextIdx hexagon.length 6 + hexagon.length,
         6 + hexagon.length] ∧
     (Floorplan3DMesh.fromPoints hexagon).faces[hexagon.length]? =
       some [hexagon.length, 1, 1 + hexagon.length,
         hexagon.length + hexagon.length]) :=
  ⟨⟨by decide, by decide⟩, side_faces_law hexagon 6 (by decide) (by decide)⟩

/-- C4 witness: the face-list order law at the hexagon. -/
theorem face_list_order_witness :
    1 ≤ hexagon.length ∧
    ∃ top sides bottom,
      (Floorplan3DMesh.fromPoints hexagon).faces = top :: (sides ++ [bottom]) ∧
      top.length = hexagon.length ∧
      (∀ j, j < hexagon.length → top[j]? = some (j + 1)) ∧
      sides.length = hexagon.length ∧
      (∀ i, 1 ≤ i → i ≤ hexagon.length → sides[i - 1]? =
        some [i, nextIdx hexagon.length i, nextIdx hexagon.length i + hexagon.length,
          i + hexagon.length]) ∧
      bottom.length = hexagon.length ∧
      (∀ j, j < hexagon.length → bottom[j]? = some (hexagon.length + 1 + j)) :=
  ⟨by decide, face_list_order hexagon (by decide)⟩

/-- C5 witness: the amended index-range/no-duplicate law at the two-point
polygon `[(0, 0), (1, 2)]`. -/
theorem index_range_law_witness :
    1 ≤ ([Point.new 0 0, Point.new 1 2] : List Point).length ∧
    ((∀ face ∈ (Floorplan3DMesh.fromPoints [Point.new 0 0, Point.new 1 2]).faces,
        ∀ idx ∈ face, 1 ≤ idx ∧
          idx ≤ (Floorplan3DMesh.fromPoints
            [Point.new 0 0, Point.new 1 2]).vertices.length) ∧
     (∀ face ∈ (Floorplan2DMesh.fromPoints [Point.new 0 0, Point.new 1 2]).faces,
        (∀ idx ∈ face, 1 ≤ idx ∧
          idx ≤ (Floorplan2DMesh.fromPoints
            [Point.new 0 0, Point.new 1 2]).vertices.length) ∧
        face.Nodup) ∧
     (2 ≤ ([Point.new 0 0, Point.new 1 2] : List Point).length →
        ∀ face ∈ (Floorplan3DMesh.fromPoints [Point.new 0 0, Point.new 1 2]).faces,
          face.Nodup)) :=
  ⟨by decide, index_range_law [Point.new 0 0, Point.new 1 2] (by decide)⟩

/-- C6 witness: the planar mesher contract at the hexagon. -/
theorem planar_mesher_contract_witness :
    1 ≤ hexagon.length ∧
    ((Floorplan2DMesh.fromPoints hexagon).vertices = hexagon ∧
     ∃ f, (Floorplan2DMesh.fromPoints hexagon).faces = [f] ∧
       f.length = hexagon.length ∧
       ∀ j, j < hexagon.length → f[j]? = some (j + 1)) :=
  ⟨by decide, planar_mesher_contract hexagon (by decide)⟩

end FloorplanMesh
